import Mathlib

/-!
Verification of the file-backed document store in backend/server.js.

The JavaScript code is shallowly embedded: request-body values become an
inductive JVal mirroring the JSON/JS value universe (with an explicit
undef for absent fields), each Express handler body becomes a pure Lean
function from its inputs (request body, current stored collection, and
the clock readings Date.now / toISOString, passed as parameters) to the
response and the newly persisted state.  File-system reads are modelled
by an Except parameter: ok v is a readable file parsing to v, error ()
is a missing or unparseable file.
-/

/-- Model of a JavaScript/JSON value as it appears in a request body or a
stored document.  The undef constructor models an absent key (JavaScript
undefined); numbers are modelled as rationals. -/
inductive JVal : Type
  | undef : JVal
  | null : JVal
  | bool (b : Bool) : JVal
  | num (q : Rat) : JVal
  | str (s : String) : JVal
  | arr (elts : List JVal) : JVal
  | obj (fields : List (String × JVal)) : JVal

/-- JavaScript truthiness, as used by the source in conditions such as
`!name` and `v || d`. -/
def JVal.truthy : JVal → Bool
  | .undef => false
  | .null => false
  | .bool b => b
  | .num q => decide (q ≠ 0)
  | .str s => decide (s ≠ "")
  | .arr _ => true
  | .obj _ => true

/-- Models the JavaScript test `typeof v === 'number'`. -/
def JVal.isNumber : JVal → Bool
  | .num _ => true
  | _ => false

/-- Models the JavaScript test `typeof v === 'boolean'`. -/
def JVal.isBoolean : JVal → Bool
  | .bool _ => true
  | _ => false

/-- Models the JavaScript test `typeof v === 'string'`. -/
def JVal.isString : JVal → Bool
  | .str _ => true
  | _ => false

/-- Models the JavaScript test `Array.isArray(v)`. -/
def JVal.isArray : JVal → Bool
  | .arr _ => true
  | _ => false

/-- Models `typeof v === 'object'` (true for null, arrays and plain
objects in JavaScript). -/
def JVal.typeofObject : JVal → Bool
  | .null => true
  | .arr _ => true
  | .obj _ => true
  | _ => false

/-- Length of an array value (only consulted by the source after an
Array.isArray check). -/
def JVal.arrLen : JVal → Nat
  | .arr l => l.length
  | _ => 0

/-- String content of a string value (only consulted by the source where
the value is a string, e.g. localeCompare). -/
def JVal.getStr : JVal → String
  | .str s => s
  | _ => ""

/-- Boolean test used to state the non-empty-coords requirement: the
value is an array with at least one element. -/
def JVal.isNonEmptyArr : JVal → Bool
  | .arr (_ :: _) => true
  | _ => false

/-- Predicate from the specification wording: the value is a non-empty
string.  Used to compare the spec claim against the code behaviour. -/
def isNonEmptyString (v : JVal) : Bool :=
  match v with
  | .str s => decide (s ≠ "")
  | _ => false

/-- Models the source pattern `if (body.f !== undefined) next.f = body.f`
merging one field: keep the default d when v is undefined, else take v. -/
def pick (v d : JVal) : JVal :=
  match v with
  | .undef => d
  | v' => v'

/-- Models the JavaScript expression `v || d`. -/
def jsOr (v d : JVal) : JVal :=
  if v.truthy then v else d

/-- Models the JavaScript expression
`typeof v === 'boolean' ? v : !!v` from the hydrophone update. -/
def boolCoerce (v : JVal) : Bool :=
  match v with
  | .bool b => b
  | v' => v'.truthy

/-- Models `typeof v === 'number' ? v : null` from the hydrophone
update. -/
def numOrNull (v : JVal) : JVal :=
  match v with
  | .num q => .num q
  | _ => .null

/-- Base-36 digit character, as produced by Number.prototype.toString(36)
("0"-"9" then "a"-"z"). -/
def b36digit (n : Nat) : Char :=
  if n < 10 then Char.ofNat (48 + n) else Char.ofNat (87 + n)

/-- Numeric value of a base-36 digit character; left inverse of b36digit
on digits below 36. -/
def digitVal (c : Char) : Nat :=
  if 97 ≤ c.toNat then c.toNat - 87 else c.toNat - 48

/-- Digit accumulation loop of the base-36 rendering.  The fuel argument
makes the recursion structural; toBase36 supplies enough fuel. -/
def toB36Go : Nat → Nat → List Char → List Char
  | 0, _, acc => acc
  | fuel + 1, n, acc =>
      if n < 36 then b36digit n :: acc
      else toB36Go fuel (n / 36) (b36digit (n % 36) :: acc)

/-- Models the id generator `Date.now().toString(36)` of the source: the
base-36 rendering of the millisecond timestamp. -/
def toBase36 (n : Nat) : String := String.mk (toB36Go (n + 1) n [])

/-- Value of a digit string, reading digits most significant first from
the start value s.  Used to prove toBase36 injective. -/
def decodeFrom (s : Nat) (l : List Char) : Nat :=
  l.foldl (fun a c => a * 36 + digitVal c) s

/-- Point of interest document, from the POI create handler
(fields id, name, lng, lat, address, tags). -/
structure Poi : Type where
  id : String
  name : JVal
  lng : JVal
  lat : JVal
  address : JVal
  tags : JVal

/-- Request body of the POI create and update handlers; undef marks a key
absent from the request. -/
structure PoiBody : Type where
  name : JVal
  lng : JVal
  lat : JVal
  address : JVal
  tags : JVal

/-- Route document, from the route create handler
(fields id, name, coords, createdAt). -/
structure Route : Type where
  id : String
  name : JVal
  coords : JVal
  createdAt : String

/-- Request body of the route create and update handlers. -/
structure RouteBody : Type where
  name : JVal
  coords : JVal

/-- Attraction document, from the attraction create handler
(fields id, name, lng, lat, address, tags, desc). -/
structure Attraction : Type where
  id : String
  name : JVal
  lng : JVal
  lat : JVal
  address : JVal
  tags : JVal
  desc : JVal

/-- Request body of the attraction update handler. -/
structure AttractionBody : Type where
  name : JVal
  lng : JVal
  lat : JVal
  address : JVal
  tags : JVal
  desc : JVal

/-- Singleton hydrophone snapshot as written by the hydrophone update and
send handlers.  After validation longitude and latitude are numbers, and
shipDetected is always coerced to a boolean, so those fields carry their
concrete types; the remaining fields are stored as given. -/
structure Snapshot : Type where
  longitude : Rat
  latitude : Rat
  heading : JVal
  temperature : JVal
  humidity : JVal
  pressure : JVal
  salinity : JVal
  shipDetected : Bool
  shipType : JVal
  timestamp : JVal

/-- Request body of the hydrophone update handler. -/
structure HydroBody : Type where
  longitude : JVal
  latitude : JVal
  heading : JVal
  temperature : JVal
  humidity : JVal
  pressure : JVal
  salinity : JVal
  shipDetected : JVal
  shipType : JVal
  timestamp : JVal

/-- Hydrophone history record.  The create handler validates longitude
and latitude as numbers and coerces shipDetected with a double negation,
so those fields carry their concrete types; sentAt is null until a send
operation stamps it with a string timestamp. -/
structure HistRec : Type where
  id : String
  name : JVal
  longitude : Rat
  latitude : Rat
  heading : JVal
  temperature : JVal
  humidity : JVal
  pressure : JVal
  salinity : JVal
  shipDetected : Bool
  shipType : JVal
  timestamp : JVal
  createdAt : String
  sentAt : JVal

/-- Audit log entry, from logOp in the source
(fields id, type, detail, ts). -/
structure LogEntry : Type where
  id : Nat
  type : String
  detail : JVal
  ts : String

/-- Combined state touched by the send operation: the singleton snapshot
(none before any write) and the history collection. -/
structure HydroState : Type where
  snap : Option Snapshot
  hist : List HistRec

/-- Models readJson of the source: parse the file, returning the fallback
on any failure.  The Except argument is the outcome of reading and
parsing the underlying file; error () covers both a missing file and
unparseable content. -/
def readJson (r : Except Unit JVal) (fallback : JVal) : JVal :=
  match r with
  | Except.ok v => v
  | Except.error _ => fallback

/-- Models readPois: readJson with the empty-list fallback. -/
def readPois (r : Except Unit JVal) : JVal := readJson r (JVal.arr [])

/-- Models readRoutes: readJson with the empty-list fallback. -/
def readRoutes (r : Except Unit JVal) : JVal := readJson r (JVal.arr [])

/-- Models readAttractions: readJson with the empty-list fallback. -/
def readAttractions (r : Except Unit JVal) : JVal := readJson r (JVal.arr [])

/-- Models readHydroHistory: readJson with the empty-list fallback. -/
def readHydroHistory (r : Except Unit JVal) : JVal := readJson r (JVal.arr [])

/-- Models the logs read readJson(logsFile, []). -/
def readLogs (r : Except Unit JVal) : JVal := readJson r (JVal.arr [])

/-- Models the usage-counter read readJson(statsFile, \x7b\x7d). -/
def readStats (r : Except Unit JVal) : JVal := readJson r (JVal.obj [])

/-- Models readHydrophone: readJson with empty-object fallback, then the
guard `v && typeof v === 'object' ? v : \x7b\x7d`. -/
def readHydrophone (r : Except Unit JVal) : JVal :=
  let v := readJson r (JVal.obj [])
  if v.truthy && v.typeofObject then v else JVal.obj []

/-- Models logOp of the source: build the entry from Date.now and the ISO
timestamp, unshift it onto the log, and truncate to 500 entries when the
length exceeds 500 (`logs.length = 500`). -/
def logOp (nowMs : Nat) (nowIso : String) (type : String) (detail : JVal)
    (logs : List LogEntry) : List LogEntry :=
  let l := { id := nowMs, type := type, detail := detail, ts := nowIso } :: logs
  if 500 < l.length then l.take 500 else l

/-- Models the POST /api/pois handler: truthiness check on name, typeof
number checks on lng and lat, destructuring defaults for address and
tags, id from Date.now().toString(36). -/
def createPoi (now : Nat) (b : PoiBody) : Except Unit Poi :=
  if !b.name.truthy || !b.lng.isNumber || !b.lat.isNumber then Except.error ()
  else
    Except.ok
      { id := toBase36 now, name := b.name, lng := b.lng, lat := b.lat,
        address := pick b.address (JVal.str ""),
        tags := pick b.tags (JVal.arr []) }

/-- Models the merge step of the PUT /api/pois/:id handler: each of the
five fields is overwritten exactly when present in the request body. -/
def mergePoi (cur : Poi) (b : PoiBody) : Poi :=
  { cur with
    name := pick b.name cur.name,
    lng := pick b.lng cur.lng,
    lat := pick b.lat cur.lat,
    address := pick b.address cur.address,
    tags := pick b.tags cur.tags }

/-- Models the POST /api/routes handler: truthiness check on name,
Array.isArray and non-zero length checks on coords. -/
def createRoute (now : Nat) (nowIso : String) (b : RouteBody) : Except Unit Route :=
  if !b.name.truthy || !b.coords.isArray || b.coords.arrLen == 0 then Except.error ()
  else
    Except.ok
      { id := toBase36 now, name := b.name, coords := b.coords, createdAt := nowIso }

/-- Models the merge step of the PUT /api/routes/:id handler. -/
def mergeRoute (cur : Route) (b : RouteBody) : Route :=
  { cur with
    name := pick b.name cur.name,
    coords := pick b.coords cur.coords }

/-- Models the merge step of the PUT /api/attractions/:id handler, which
iterates over the six updatable keys. -/
def mergeAttraction (cur : Attraction) (b : AttractionBody) : Attraction :=
  { cur with
    name := pick b.name cur.name,
    lng := pick b.lng cur.lng,
    lat := pick b.lat cur.lat,
    address := pick b.address cur.address,
    tags := pick b.tags cur.tags,
    desc := pick b.desc cur.desc }

/-- Models the findIndex plus in-place replacement shared by the three
update handlers: locate the first document whose id matches, replace it
by the merged document, return the merged document and the new list;
none models the 404 branch. -/
def updateFirst {α β : Type} (getId : α → String) (merge : α → β → α)
    (id : String) (b : β) : List α → Option (α × List α)
  | [] => none
  | x :: xs =>
      if getId x = id then some (merge x b, merge x b :: xs)
      else
        match updateFirst getId merge id b xs with
        | none => none
        | some (d, xs') => some (d, x :: xs')

/-- Models the delete handlers shared by all four collections: filter out
every document whose id matches, then signal 404 exactly when the length
did not change. -/
def deleteById {α : Type} (getId : α → String) (id : String)
    (list : List α) : Except Unit (List α) :=
  let next := list.filter (fun x => getId x != id)
  if next.length = list.length then Except.error () else Except.ok next

/-- Case-folded code point of an ASCII character: uppercase letters map
to their lowercase counterpart.  This is the primary collation strength
of the Unicode root collation on ASCII letters. -/
def foldCase (c : Char) : Nat :=
  if 65 ≤ c.toNat && c.toNat ≤ 90 then c.toNat + 32 else c.toNat

/-- Primary-strength comparison of two character lists: case-folded
code points compared position by position. -/
def ciListCompare : List Char → List Char → Int
  | [], [] => 0
  | [], _ :: _ => -1
  | _ :: _, [] => 1
  | a :: as, b :: bs =>
      if foldCase a < foldCase b then -1
      else if foldCase b < foldCase a then 1
      else ciListCompare as bs

/-- One concrete behaviour of the external collation
String.prototype.localeCompare on ASCII names: the documented
default-locale (root collation) ordering at primary strength, under
which "apple" precedes "Banana" although "Banana" precedes "apple" in
code-point order.  localeCompare consults the host default locale, so
the embedding treats the collation as an oracle; this definition is the
documented instance used by the counterexample. -/
def localeCompareCI (s t : String) : Int := ciListCompare s.data t.data

/-- Plain code-point comparator, a second concrete comparator
satisfying the comparator contract; used by the witness. -/
def codePointCompare (s t : String) : Int := if s ≤ t then -1 else 1

/-- Code-point lexicographic order on character lists. -/
def lexListLe : List Char → List Char → Bool
  | [], _ => true
  | _ :: _, [] => false
  | a :: as, b :: bs =>
      if a.toNat < b.toNat then true
      else if b.toNat < a.toNat then false
      else lexListLe as bs

/-- Code-point lexicographic order on strings: the reading of the claim
phrase "ascending by name in lexicographic order", made explicit so the
counterexample can evaluate it. -/
def lexCodePointLe (s t : String) : Bool := lexListLe s.data t.data

/-- Models the GET /api/pois handler
`list.sort((a,b) => a.name.localeCompare(b.name))`.  localeCompare is
the host-locale collation, so it enters the model as the oracle lc (a
non-positive result meaning the first name may precede the second, as
for a JavaScript sort comparator).  The handler throws on a non-string
name, so the embedding is faithful on stores whose names are all
strings; the stored sequence itself is not persisted back, so listing
leaves the store unchanged. -/
def listPois (lc : String → String → Int) (l : List Poi) : List Poi :=
  l.mergeSort (fun a b => decide (lc a.name.getStr b.name.getStr ≤ 0))

/-- Models the GET /api/attractions handler, sorting by the same
localeCompare collation oracle as listPois. -/
def listAttractions (lc : String → String → Int) (l : List Attraction) : List Attraction :=
  l.mergeSort (fun a b => decide (lc a.name.getStr b.name.getStr ≤ 0))

/-- Stored POI named "apple", used by the C10 counterexample. -/
def poiApple : Poi :=
  { id := "a1", name := JVal.str "apple", lng := JVal.num 1, lat := JVal.num 2,
    address := JVal.str "", tags := JVal.arr [] }

/-- Stored POI named "Banana", used by the C10 counterexample. -/
def poiBanana : Poi :=
  { id := "b1", name := JVal.str "Banana", lng := JVal.num 3, lat := JVal.num 4,
    address := JVal.str "", tags := JVal.arr [] }

/-- Models the GET /api/routes sort
`(a,b) => (a.createdAt < b.createdAt ? 1 : -1)`: a may precede b exactly
when the comparator is non-positive, i.e. descending by createdAt. -/
def listRoutes (l : List Route) : List Route :=
  l.mergeSort (fun a b => decide (b.createdAt ≤ a.createdAt))

/-- Models the GET /api/hydro/history sort: descending by createdAt. -/
def listHydroHistory (l : List HistRec) : List HistRec :=
  l.mergeSort (fun a b => decide (b.createdAt ≤ a.createdAt))

/-- Models the POST /api/hydrophone/update handler: longitude and
latitude must be numbers, the five sensor fields fall back to null when
not numbers, shipDetected is coerced to a boolean, shipType and
timestamp fall back through the JavaScript or-operator. -/
def hydrophoneUpdate (now : String) (b : HydroBody) : Except Unit Snapshot :=
  match b.longitude, b.latitude with
  | JVal.num lo, JVal.num la =>
      Except.ok
        { longitude := lo, latitude := la,
          heading := numOrNull b.heading,
          temperature := numOrNull b.temperature,
          humidity := numOrNull b.humidity,
          pressure := numOrNull b.pressure,
          salinity := numOrNull b.salinity,
          shipDetected := boolCoerce b.shipDetected,
          shipType := jsOr b.shipType (JVal.str ""),
          timestamp := jsOr b.timestamp (JVal.str now) }
  | _, _ => Except.error ()

/-- Models the payload construction of the POST /api/hydro/history/:id/send
handler: copy the record fields, re-coerce shipDetected (identity on the
boolean field) and shipType, and stamp a fresh timestamp. -/
def mkSendPayload (now : String) (item : HistRec) : Snapshot :=
  { longitude := item.longitude, latitude := item.latitude,
    heading := item.heading, temperature := item.temperature,
    humidity := item.humidity, pressure := item.pressure,
    salinity := item.salinity,
    shipDetected := item.shipDetected,
    shipType := jsOr item.shipType (JVal.str ""),
    timestamp := JVal.str now }

/-- Models the in-place mutation `item.sentAt = payload.timestamp`
followed by rewriting the whole list: the first record whose id matches
gets its sentAt stamped; the rest of the list is untouched. -/
def markSent (now id : String) : List HistRec → List HistRec
  | [] => []
  | x :: xs =>
      if x.id = id then { x with sentAt := JVal.str now } :: xs
      else x :: markSent now id xs

/-- Models the whole send handler over the two collections it touches:
404 leaves the state unchanged, otherwise the snapshot is overwritten
with the payload and the history record is stamped. -/
def applySend (now id : String) (st : HydroState) : HydroState × Bool :=
  match st.hist.find? (fun x => x.id == id) with
  | none => (st, false)
  | some item =>
      ({ snap := some (mkSendPayload now item), hist := markSent now id st.hist }, true)

/-- One route-collection operation, as dispatched by the Express route
handlers; clock readings are carried by the operation. -/
inductive RouteOp : Type
  | create (now : Nat) (nowIso : String) (b : RouteBody) : RouteOp
  | update (id : String) (b : RouteBody) : RouteOp
  | del (id : String) : RouteOp

/-- State transition of the route collection under one operation; a
validation failure or a missing id leaves the stored collection
unchanged. -/
def stepRoute (st : List Route) : RouteOp → List Route
  | RouteOp.create now nowIso b =>
      match createRoute now nowIso b with
      | Except.ok item => st ++ [item]
      | Except.error _ => st
  | RouteOp.update id b =>
      match updateFirst Route.id mergeRoute id b st with
      | some (_, st') => st'
      | none => st
  | RouteOp.del id =>
      match deleteById Route.id id st with
      | Except.ok st' => st'
      | Except.error _ => st

/-- Run a sequence of route operations from the empty collection. -/
def runRoutes (ops : List RouteOp) : List Route :=
  ops.foldl stepRoute []

/-- A route-update body that keeps the non-empty-coords invariant: it
either omits coords or supplies a non-empty array. -/
def goodBody (b : RouteBody) : Bool :=
  match b.coords with
  | JVal.undef => true
  | v => v.isNonEmptyArr

/-- An operation that keeps the non-empty-coords invariant: only updates
are constrained. -/
def goodOp : RouteOp → Bool
  | RouteOp.update _ b => goodBody b
  | _ => true

/-- Concrete route-create body with one coordinate pair, used by the C9
counterexample and witness. -/
def cxRouteGood : RouteBody :=
  { name := JVal.str "A", coords := JVal.arr [JVal.arr [JVal.num 0, JVal.num 0]] }

/-- Concrete route-update body supplying an empty coords array. -/
def cxRouteEmpty : RouteBody := { name := JVal.undef, coords := JVal.arr [] }

/-- Operation sequence of the C9 counterexample: a valid create followed
by an update that stores empty coords. -/
def cxRouteOps : List RouteOp :=
  [RouteOp.create 1 "t1" cxRouteGood, RouteOp.update (toBase36 1) cxRouteEmpty]

/-- Operation sequence of the C9 witness: a single valid create. -/
def cwRouteOps : List RouteOp := [RouteOp.create 1 "t1" cxRouteGood]

/-- Route stored after running the C9 witness operations. -/
def cwRoute : Route :=
  { id := toBase36 1, name := JVal.str "A",
    coords := JVal.arr [JVal.arr [JVal.num 0, JVal.num 0]], createdAt := "t1" }

/-- Concrete stored POI used by witnesses. -/
def cwPoi : Poi :=
  { id := "p1", name := JVal.str "Pier", lng := JVal.num 120, lat := JVal.num 30,
    address := JVal.str "", tags := JVal.arr [] }

/-- Concrete second stored POI with a different id, used by witnesses. -/
def cwOther : Poi :=
  { id := "p2", name := JVal.str "Dock", lng := JVal.num 121, lat := JVal.num 31,
    address := JVal.str "", tags := JVal.arr [] }

/-- Concrete partial update body touching only the tags field. -/
def cwPoiBody : PoiBody :=
  { name := JVal.undef, lng := JVal.undef, lat := JVal.undef, address := JVal.undef,
    tags := JVal.arr [JVal.str "park"] }

/-- Concrete stored hydrophone history record used by witnesses. -/
def cwHist : HistRec :=
  { id := "h1", name := JVal.str "N", longitude := 1, latitude := 2,
    heading := JVal.null, temperature := JVal.null, humidity := JVal.null,
    pressure := JVal.null, salinity := JVal.null, shipDetected := false,
    shipType := JVal.str "", timestamp := JVal.str "t0", createdAt := "t0",
    sentAt := JVal.null }

/-- Concrete hydrophone state holding one history record and no snapshot. -/
def cwHState : HydroState := { snap := none, hist := [cwHist] }

/-- Entry used to pre-fill the audit log in the C3 witness. -/
def cwEntry : LogEntry := { id := 0, type := "seed", detail := JVal.null, ts := "t" }

/-- Concrete POI create body with a numeric (truthy but non-string) name. -/
def cxPoiBody : PoiBody :=
  { name := JVal.num 42, lng := JVal.num 1, lat := JVal.num 2,
    address := JVal.undef, tags := JVal.undef }

/-- Concrete valid POI create body omitting address and tags. -/
def cwGoodBody : PoiBody :=
  { name := JVal.str "Pier", lng := JVal.num 120, lat := JVal.num 30,
    address := JVal.undef, tags := JVal.undef }

/-- Concrete hydrophone body whose shipDetected is the number 3, a
wrong-typed but truthy value. -/
def cxHydroBody : HydroBody :=
  { longitude := JVal.num 1, latitude := JVal.num 2, heading := JVal.undef,
    temperature := JVal.undef, humidity := JVal.undef, pressure := JVal.undef,
    salinity := JVal.undef, shipDetected := JVal.num 3, shipType := JVal.undef,
    timestamp := JVal.undef }

/-- Concrete valid hydrophone body with only the required fields. -/
def cwHydroBody : HydroBody :=
  { longitude := JVal.num 5, latitude := JVal.num 6, heading := JVal.undef,
    temperature := JVal.undef, humidity := JVal.undef, pressure := JVal.undef,
    salinity := JVal.undef, shipDetected := JVal.undef, shipType := JVal.undef,
    timestamp := JVal.undef }

/-- Concrete first create body used by the C8 counterexample. -/
def cxPoiBody1 : PoiBody :=
  { name := JVal.str "A", lng := JVal.num 1, lat := JVal.num 2,
    address := JVal.undef, tags := JVal.undef }

/-- Concrete second create body used by the C8 counterexample. -/
def cxPoiBody2 : PoiBody :=
  { name := JVal.str "B", lng := JVal.num 3, lat := JVal.num 4,
    address := JVal.undef, tags := JVal.undef }

/-- Document produced by the first create of the C8 counterexample. -/
def cxPoi1 : Poi :=
  { id := toBase36 7, name := JVal.str "A", lng := JVal.num 1, lat := JVal.num 2,
    address := JVal.str "", tags := JVal.arr [] }

/-- Document produced by the second create of the C8 counterexample. -/
def cxPoi2 : Poi :=
  { id := toBase36 7, name := JVal.str "B", lng := JVal.num 3, lat := JVal.num 4,
    address := JVal.str "", tags := JVal.arr [] }
/-- Reading a base-36 digit back gives the digit value. -/
theorem digitVal_b36digit : ∀ n, n < 36 → digitVal (b36digit n) = n := by decide

/-- Decoding the rendered digits of n starting from zero is the same as
continuing the decode from n: the digit loop is value-preserving. -/
theorem decode_toB36Go :
    ∀ fuel n acc, n < fuel →
      decodeFrom 0 (toB36Go fuel n acc) = decodeFrom n acc := by
  intro fuel
  induction fuel with
  | zero => intro n acc h; omega
  | succ f ih =>
    intro n acc h
    rw [toB36Go]
    by_cases h36 : n < 36
    · simp only [h36, if_true]
      simp [decodeFrom, digitVal_b36digit n h36]
    · simp only [h36, if_false]
      rw [ih (n / 36) _ (by omega)]
      have hm : n % 36 < 36 := Nat.mod_lt _ (by omega)
      simp only [decodeFrom, List.foldl_cons, digitVal_b36digit _ hm]
      congr 1
      omega

/-- The id generator is injective: distinct millisecond timestamps yield
distinct ids. -/
theorem toBase36_injective : ∀ m n : Nat, m ≠ n → toBase36 m ≠ toBase36 n := by
  intro m n hne h
  have hc : toB36Go (m + 1) m [] = toB36Go (n + 1) n [] := congrArg String.data h
  have h1 := decode_toB36Go (m + 1) m [] (by omega)
  rw [hc, decode_toB36Go (n + 1) n [] (by omega)] at h1
  simp only [decodeFrom, List.foldl_nil] at h1
  exact hne h1.symm

/-- Behaviour of the one-field merge helper: the stored value is kept
exactly when the request key is absent. -/
theorem pick_spec :
    ∀ v d : JVal, (v = JVal.undef → pick v d = d) ∧ (v ≠ JVal.undef → pick v d = v) := by
  intro v d
  constructor
  · intro h; subst h; rfl
  · intro h; cases v <;> first | rfl | exact absurd rfl h

/-- Resolving the update position: when the first document bearing the
requested id is cur, the update returns the merged cur and splices it in
place, leaving every other document untouched. -/
theorem updateFirst_append {α β : Type} (getId : α → String) (merge : α → β → α)
    (id : String) (b : β) :
    ∀ (l1 : List α) (cur : α) (l2 : List α),
      getId cur = id → (∀ y ∈ l1, getId y ≠ id) →
      updateFirst getId merge id b (l1 ++ cur :: l2) =
        some (merge cur b, l1 ++ merge cur b :: l2) := by
  intro l1
  induction l1 with
  | nil =>
    intro cur l2 hcur _
    simp [updateFirst, hcur]
  | cons x xs ih =>
    intro cur l2 hcur hl1
    have hx : getId x ≠ id := hl1 x (by simp)
    have hrest := ih cur l2 hcur (fun y hy => hl1 y (by simp [hy]))
    simp only [List.cons_append, updateFirst, List.append_eq, if_neg hx, hrest]

/-- A successful update leaves the sequence of stored ids unchanged,
provided the merge function never touches the id field. -/
theorem updateFirst_map_id {α β : Type} (getId : α → String) (merge : α → β → α)
    (hmerge : ∀ x bb, getId (merge x bb) = getId x) (id : String) (b : β) :
    ∀ (l l' : List α) (d : α),
      updateFirst getId merge id b l = some (d, l') →
      l'.map getId = l.map getId := by
  intro l
  induction l with
  | nil => intro l' d h; simp [updateFirst] at h
  | cons x xs ih =>
    intro l' d h
    by_cases hx : getId x = id
    · simp only [updateFirst, if_pos hx] at h
      cases h
      simp [hmerge]
    · simp only [updateFirst, if_neg hx] at h
      cases hfx : updateFirst getId merge id b xs with
      | none => rw [hfx] at h; cases h
      | some p =>
        rw [hfx] at h
        cases h
        simp [ih p.2 p.1 (by rw [hfx])]

/-- Every document in the output of a successful update is either an old
document or the merge of an old document with the request body. -/
theorem updateFirst_mem {α β : Type} (getId : α → String) (merge : α → β → α)
    (id : String) (b : β) :
    ∀ (l l' : List α) (d : α),
      updateFirst getId merge id b l = some (d, l') →
      ∀ y ∈ l', y ∈ l ∨ ∃ x ∈ l, y = merge x b := by
  intro l
  induction l with
  | nil => intro l' d h; simp [updateFirst] at h
  | cons x xs ih =>
    intro l' d h y hy
    by_cases hx : getId x = id
    · simp only [updateFirst, if_pos hx] at h
      cases h
      rcases List.mem_cons.mp hy with h1 | h1
      · exact Or.inr ⟨x, List.mem_cons_self x xs, h1⟩
      · exact Or.inl (List.mem_cons_of_mem x h1)
    · simp only [updateFirst, if_neg hx] at h
      cases hfx : updateFirst getId merge id b xs with
      | none => rw [hfx] at h; cases h
      | some p =>
        rw [hfx] at h
        cases h
        rcases List.mem_cons.mp hy with h1 | h1
        · subst h1; exact Or.inl (List.mem_cons_self y xs)
        · rcases ih p.2 p.1 (by rw [hfx]) y h1 with h2 | ⟨z, hz, hzy⟩
          · exact Or.inl (List.mem_cons_of_mem x h2)
          · exact Or.inr ⟨z, List.mem_cons_of_mem x hz, hzy⟩

/-- claim C3: appending to the audit log places the new entry at
position 0, the resulting log never exceeds 500 entries, and when the
log already holds exactly 500 entries the append evicts exactly the
entry at the tail and no other. -/
theorem claim_C3 :
    ∀ (nowMs : Nat) (nowIso type : String) (detail : JVal) (logs : List LogEntry),
      (logOp nowMs nowIso type detail logs).head? =
        some { id := nowMs, type := type, detail := detail, ts := nowIso } ∧
      (logOp nowMs nowIso type detail logs).length ≤ 500 ∧
      (logs.length = 500 →
        logOp nowMs nowIso type detail logs =
          { id := nowMs, type := type, detail := detail, ts := nowIso } :: logs.dropLast) := by
  intro nowMs nowIso type detail logs
  refine ⟨?_, ?_, ?_⟩
  · simp only [logOp, List.length_cons]
    by_cases h : 500 < logs.length + 1
    · rw [if_pos h, show (500 : Nat) = 499 + 1 from rfl, List.take_succ_cons]
      rfl
    · rw [if_neg h]
      rfl
  · simp only [logOp, List.length_cons]
    by_cases h : 500 < logs.length + 1
    · rw [if_pos h]
      simp only [List.length_take, List.length_cons]
      omega
    · rw [if_neg h]
      simp only [List.length_cons]
      omega
  · intro h500
    simp only [logOp, List.length_cons, h500]
    rw [if_pos (by omega)]
    rw [show (500 : Nat) = 499 + 1 from rfl, List.take_succ_cons]
    rw [List.dropLast_eq_take, h500]

/-- claim C4: for every collection, deleting an id borne by no stored
document signals NotFound and (since nothing is written on that branch)
leaves the stored collection unchanged; deleting the id of the unique
document bearing it removes exactly that document, keeps all the others
in order, and the resulting collection contains no document with the
deleted id. -/
theorem claim_C4 :
    ∀ {α : Type} (getId : α → String) (id : String),
      (∀ list : List α, (∀ x ∈ list, getId x ≠ id) →
        deleteById getId id list = Except.error ()) ∧
      (∀ (l1 : List α) (d : α) (l2 : List α),
        getId d = id → (∀ y ∈ l1, getId y ≠ id) → (∀ y ∈ l2, getId y ≠ id) →
        deleteById getId id (l1 ++ d :: l2) = Except.ok (l1 ++ l2) ∧
        ∀ y ∈ l1 ++ l2, getId y ≠ id) := by
  intro α getId id
  constructor
  · intro list hnone
    have hfix : list.filter (fun x => getId x != id) = list :=
      List.filter_eq_self.mpr (fun a ha => by simpa using hnone a ha)
    simp [deleteById, hfix]
  · intro l1 d l2 hd h1 h2
    have hf1 : l1.filter (fun x => getId x != id) = l1 :=
      List.filter_eq_self.mpr (fun a ha => by simpa using h1 a ha)
    have hf2 : l2.filter (fun x => getId x != id) = l2 :=
      List.filter_eq_self.mpr (fun a ha => by simpa using h2 a ha)
    have hfilter :
        (l1 ++ d :: l2).filter (fun x => getId x != id) = l1 ++ l2 := by
      simp only [List.filter_append, hf1, List.filter_cons]
      simp [hd, hf2]
    constructor
    · simp only [deleteById, hfilter]
      rw [if_neg (by simp only [List.length_append, List.length_cons]; omega)]
    · intro y hy
      rcases List.mem_append.mp hy with h | h
      · exact h1 y h
      · exact h2 y h

/-- claim C7: when the underlying file is missing or unparseable
(modelled by the error outcome of the read), every list-shaped
collection read returns the empty sequence, and the snapshot-shaped
reads return the empty mapping; all read helpers are total functions, so
no error reaches the caller. -/
theorem claim_C7 :
    readPois (Except.error ()) = JVal.arr [] ∧
    readRoutes (Except.error ()) = JVal.arr [] ∧
    readAttractions (Except.error ()) = JVal.arr [] ∧
    readHydroHistory (Except.error ()) = JVal.arr [] ∧
    readLogs (Except.error ()) = JVal.arr [] ∧
    readHydrophone (Except.error ()) = JVal.obj [] ∧
    readStats (Except.error ()) = JVal.obj [] :=
  ⟨rfl, rfl, rfl, rfl, rfl, rfl, rfl⟩

/-- Stamping sentAt on the first matching record makes it the record the
next lookup by that id returns. -/
theorem find?_markSent (now id : String) :
    ∀ (l : List HistRec) (item : HistRec),
      l.find? (fun x => x.id == id) = some item →
      (markSent now id l).find? (fun x => x.id == id) =
        some { item with sentAt := JVal.str now } := by
  intro l
  induction l with
  | nil => intro item h; simp at h
  | cons x xs ih =>
    intro item h
    by_cases hx : x.id = id
    · rw [List.find?_cons_of_pos _ (by simp [hx])] at h
      cases h
      simp only [markSent, if_pos hx]
      exact List.find?_cons_of_pos _ (by simp [hx])
    · rw [List.find?_cons_of_neg _ (by simp [hx])] at h
      simp only [markSent, if_neg hx]
      rw [List.find?_cons_of_neg _ (by simp [hx])]
      exact ih item h

/-- claim C1: for POIs, Routes and Attractions, updating an existing
document merges exactly the fields present in the request body onto the
located document (absent fields keep their stored value, present fields
take the request value, the id is untouched), the merged document is
both returned and stored in place, and every other document of the
collection is left unchanged. -/
theorem claim_C1 :
    (∀ (id : String) (b : PoiBody) (l1 : List Poi) (cur : Poi) (l2 : List Poi),
      cur.id = id → (∀ y ∈ l1, y.id ≠ id) →
      updateFirst Poi.id mergePoi id b (l1 ++ cur :: l2) =
        some (mergePoi cur b, l1 ++ mergePoi cur b :: l2) ∧
      (mergePoi cur b).id = cur.id ∧
      ((b.name = JVal.undef → (mergePoi cur b).name = cur.name) ∧
        (b.name ≠ JVal.undef → (mergePoi cur b).name = b.name)) ∧
      ((b.lng = JVal.undef → (mergePoi cur b).lng = cur.lng) ∧
        (b.lng ≠ JVal.undef → (mergePoi cur b).lng = b.lng)) ∧
      ((b.lat = JVal.undef → (mergePoi cur b).lat = cur.lat) ∧
        (b.lat ≠ JVal.undef → (mergePoi cur b).lat = b.lat)) ∧
      ((b.address = JVal.undef → (mergePoi cur b).address = cur.address) ∧
        (b.address ≠ JVal.undef → (mergePoi cur b).address = b.address)) ∧
      ((b.tags = JVal.undef → (mergePoi cur b).tags = cur.tags) ∧
        (b.tags ≠ JVal.undef → (mergePoi cur b).tags = b.tags))) ∧
    (∀ (id : String) (b : RouteBody) (l1 : List Route) (cur : Route) (l2 : List Route),
      cur.id = id → (∀ y ∈ l1, y.id ≠ id) →
      updateFirst Route.id mergeRoute id b (l1 ++ cur :: l2) =
        some (mergeRoute cur b, l1 ++ mergeRoute cur b :: l2) ∧
      (mergeRoute cur b).id = cur.id ∧
      (mergeRoute cur b).createdAt = cur.createdAt ∧
      ((b.name = JVal.undef → (mergeRoute cur b).name = cur.name) ∧
        (b.name ≠ JVal.undef → (mergeRoute cur b).name = b.name)) ∧
      ((b.coords = JVal.undef → (mergeRoute cur b).coords = cur.coords) ∧
        (b.coords ≠ JVal.undef → (mergeRoute cur b).coords = b.coords))) ∧
    (∀ (id : String) (b : AttractionBody) (l1 : List Attraction) (cur : Attraction)
        (l2 : List Attraction),
      cur.id = id → (∀ y ∈ l1, y.id ≠ id) →
      updateFirst Attraction.id mergeAttraction id b (l1 ++ cur :: l2) =
        some (mergeAttraction cur b, l1 ++ mergeAttraction cur b :: l2) ∧
      (mergeAttraction cur b).id = cur.id ∧
      ((b.name = JVal.undef → (mergeAttraction cur b).name = cur.name) ∧
        (b.name ≠ JVal.undef → (mergeAttraction cur b).name = b.name)) ∧
      ((b.lng = JVal.undef → (mergeAttraction cur b).lng = cur.lng) ∧
        (b.lng ≠ JVal.undef → (mergeAttraction cur b).lng = b.lng)) ∧
      ((b.lat = JVal.undef → (mergeAttraction cur b).lat = cur.lat) ∧
        (b.lat ≠ JVal.undef → (mergeAttraction cur b).lat = b.lat)) ∧
      ((b.address = JVal.undef → (mergeAttraction cur b).address = cur.address) ∧
        (b.address ≠ JVal.undef → (mergeAttraction cur b).address = b.address)) ∧
      ((b.tags = JVal.undef → (mergeAttraction cur b).tags = cur.tags) ∧
        (b.tags ≠ JVal.undef → (mergeAttraction cur b).tags = b.tags)) ∧
      ((b.desc = JVal.undef → (mergeAttraction cur b).desc = cur.desc) ∧
        (b.desc ≠ JVal.undef → (mergeAttraction cur b).desc = b.desc))) := by
  refine ⟨?_, ?_, ?_⟩
  · intro id b l1 cur l2 hcur hl1
    exact ⟨updateFirst_append Poi.id mergePoi id b l1 cur l2 hcur hl1, rfl,
      pick_spec b.name cur.name, pick_spec b.lng cur.lng, pick_spec b.lat cur.lat,
      pick_spec b.address cur.address, pick_spec b.tags cur.tags⟩
  · intro id b l1 cur l2 hcur hl1
    exact ⟨updateFirst_append Route.id mergeRoute id b l1 cur l2 hcur hl1, rfl, rfl,
      pick_spec b.name cur.name, pick_spec b.coords cur.coords⟩
  · intro id b l1 cur l2 hcur hl1
    exact ⟨updateFirst_append Attraction.id mergeAttraction id b l1 cur l2 hcur hl1, rfl,
      pick_spec b.name cur.name, pick_spec b.lng cur.lng, pick_spec b.lat cur.lat,
      pick_spec b.address cur.address, pick_spec b.tags cur.tags, pick_spec b.desc cur.desc⟩

/-- Witness for claim C1 at a concrete one-element collection and a
tags-only partial update. -/
theorem claim_C1_witness :
    updateFirst Poi.id mergePoi "p1" cwPoiBody ([] ++ cwPoi :: []) =
      some (mergePoi cwPoi cwPoiBody, [] ++ mergePoi cwPoi cwPoiBody :: []) :=
  (claim_C1.1 "p1" cwPoiBody [] cwPoi [] rfl (by simp)).1

/-- claim C2: sending a stored hydrophone history record overwrites the
singleton snapshot with a document whose data fields come from that
record and whose timestamp is freshly generated, and stamps that record
with a non-null sentAt equal to the new timestamp; an unknown id signals
NotFound and leaves both collections unchanged.  The shipType hypothesis
records the create-handler invariant (shipType is stored either truthy
or as the empty string), under which the send-handler re-coercion is the
identity. -/
theorem claim_C2 :
    ∀ (now id : String) (st : HydroState),
      (st.hist.find? (fun x => x.id == id) = none →
        applySend now id st = (st, false)) ∧
      (∀ item : HistRec,
        st.hist.find? (fun x => x.id == id) = some item →
        (item.shipType.truthy = true ∨ item.shipType = JVal.str "") →
        applySend now id st =
          ({ snap := some
                { longitude := item.longitude, latitude := item.latitude,
                  heading := item.heading, temperature := item.temperature,
                  humidity := item.humidity, pressure := item.pressure,
                  salinity := item.salinity, shipDetected := item.shipDetected,
                  shipType := item.shipType, timestamp := JVal.str now },
              hist := markSent now id st.hist }, true) ∧
        (markSent now id st.hist).find? (fun x => x.id == id) =
          some { item with sentAt := JVal.str now } ∧
        JVal.str now ≠ JVal.null) := by
  intro now id st
  constructor
  · intro h
    simp only [applySend, h]
  · intro item hfind hship
    have hpay : mkSendPayload now item =
        { longitude := item.longitude, latitude := item.latitude,
          heading := item.heading, temperature := item.temperature,
          humidity := item.humidity, pressure := item.pressure,
          salinity := item.salinity, shipDetected := item.shipDetected,
          shipType := item.shipType, timestamp := JVal.str now } := by
      unfold mkSendPayload
      rcases hship with h | h
      · simp [jsOr, h]
      · simp [jsOr, h, JVal.truthy]
    refine ⟨?_, find?_markSent now id st.hist item hfind, by intro hc; cases hc⟩
    simp only [applySend, hfind, hpay]

/-- Witness for claim C2 at a concrete one-record history. -/
theorem claim_C2_witness :
    applySend "T1" "h1" cwHState =
      ({ snap := some
            { longitude := cwHist.longitude, latitude := cwHist.latitude,
              heading := cwHist.heading, temperature := cwHist.temperature,
              humidity := cwHist.humidity, pressure := cwHist.pressure,
              salinity := cwHist.salinity, shipDetected := cwHist.shipDetected,
              shipType := cwHist.shipType, timestamp := JVal.str "T1" },
          hist := markSent "T1" "h1" cwHState.hist }, true) :=
  ((claim_C2 "T1" "h1" cwHState).2 cwHist rfl (Or.inr rfl)).1

/-- Witness for claim C3 at a log already holding exactly 500 entries. -/
theorem claim_C3_witness :
    logOp 1 "t1" "op" JVal.null (List.replicate 500 cwEntry) =
      { id := 1, type := "op", detail := JVal.null, ts := "t1" } ::
        (List.replicate 500 cwEntry).dropLast :=
  (claim_C3 1 "t1" "op" JVal.null (List.replicate 500 cwEntry)).2.2
    (by rw [List.length_replicate])

/-- Witness for claim C4 at a concrete two-element collection. -/
theorem claim_C4_witness :
    deleteById Poi.id "p1" ([cwOther] ++ cwPoi :: []) = Except.ok ([cwOther] ++ []) :=
  ((claim_C4 Poi.id "p1").2 [cwOther] cwPoi [] rfl
    (fun y hy => by rcases List.mem_singleton.mp hy with rfl; decide)
    (by simp)).1

/-- Counterexample to claim C5 as stated: a request whose name is the
number 42 is not a non-empty string, so the claim demands
ValidationError, yet the handler (whose check `!name` is mere JavaScript
truthiness) accepts it and stores the numeric name. -/
theorem claim_C5_counterexample :
    createPoi 5 cxPoiBody =
      Except.ok
        { id := toBase36 5, name := JVal.num 42, lng := JVal.num 1, lat := JVal.num 2,
          address := JVal.str "", tags := JVal.arr [] } ∧
    isNonEmptyString cxPoiBody.name = false := ⟨rfl, rfl⟩

/-- claim C5 (amended): POI create returns ValidationError exactly when
name is falsy (absent, empty string, zero, false or null) or lng or lat
is not numeric; otherwise it returns the created document with a fresh
id, the given name, lng and lat, and the defaults for address and tags
exactly when those keys are absent (pick applies a default only to an
absent key). -/
theorem claim_C5 :
    ∀ (now : Nat) (b : PoiBody),
      (createPoi now b = Except.error () ↔
        (b.name.truthy = false ∨ b.lng.isNumber = false ∨ b.lat.isNumber = false)) ∧
      (b.name.truthy = true → b.lng.isNumber = true → b.lat.isNumber = true →
        createPoi now b =
          Except.ok
            { id := toBase36 now, name := b.name, lng := b.lng, lat := b.lat,
              address := pick b.address (JVal.str ""),
              tags := pick b.tags (JVal.arr []) }) ∧
      (∀ v d : JVal, (v = JVal.undef → pick v d = d) ∧ (v ≠ JVal.undef → pick v d = v)) := by
  intro now b
  refine ⟨?_, ?_, pick_spec⟩
  · unfold createPoi
    by_cases h : (!b.name.truthy || !b.lng.isNumber || !b.lat.isNumber) = true
    · rw [if_pos h]
      simp only [Bool.or_eq_true, Bool.not_eq_true'] at h
      exact iff_of_true rfl (by tauto)
    · rw [if_neg h]
      simp only [Bool.or_eq_true, Bool.not_eq_true'] at h
      apply iff_of_false
      · intro hc
        exact Except.noConfusion hc
      · intro hd
        exact absurd (by tauto : (b.name.truthy = false ∨ b.lng.isNumber = false) ∨
          b.lat.isNumber = false) h
  · intro h1 h2 h3
    unfold createPoi
    rw [if_neg (by simp [h1, h2, h3])]

/-- Witness for claim C5 at a concrete valid body. -/
theorem claim_C5_witness :
    createPoi 9 cwGoodBody =
      Except.ok
        { id := toBase36 9, name := cwGoodBody.name, lng := cwGoodBody.lng,
          lat := cwGoodBody.lat, address := pick cwGoodBody.address (JVal.str ""),
          tags := pick cwGoodBody.tags (JVal.arr []) } :=
  (claim_C5 9 cwGoodBody).2.1 (by decide) (by decide) (by decide)

/-- Counterexample to claim C6 as stated: shipDetected is wrong-typed
(the number 3), so the claim demands the default false, yet the handler
coerces with a double negation and stores true. -/
theorem claim_C6_counterexample :
    hydrophoneUpdate "T" cxHydroBody =
      Except.ok
        { longitude := 1, latitude := 2, heading := JVal.null,
          temperature := JVal.null, humidity := JVal.null, pressure := JVal.null,
          salinity := JVal.null, shipDetected := true, shipType := JVal.str "",
          timestamp := JVal.str "T" } ∧
    cxHydroBody.shipDetected.isBoolean = false := ⟨rfl, rfl⟩

/-- claim C6 (amended): with numeric longitude and latitude the update
succeeds, and the stored optional fields obey the handler defaulting
policy: the five sensor fields keep a numeric input and become null for
every absent or wrong-typed input; shipDetected stores the truthiness of
the input (so a wrong-typed truthy value becomes true, not false);
shipType keeps any truthy input and becomes the empty string for falsy
input; timestamp keeps any truthy input and becomes the current time for
falsy input. -/
theorem claim_C6 :
    ∀ (now : String) (b : HydroBody) (lo la : Rat),
      b.longitude = JVal.num lo → b.latitude = JVal.num la →
      (hydrophoneUpdate now b =
        Except.ok
          { longitude := lo, latitude := la,
            heading := numOrNull b.heading, temperature := numOrNull b.temperature,
            humidity := numOrNull b.humidity, pressure := numOrNull b.pressure,
            salinity := numOrNull b.salinity,
            shipDetected := boolCoerce b.shipDetected,
            shipType := jsOr b.shipType (JVal.str ""),
            timestamp := jsOr b.timestamp (JVal.str now) }) ∧
      (∀ v : JVal, v.isNumber = false → numOrNull v = JVal.null) ∧
      (∀ q : Rat, numOrNull (JVal.num q) = JVal.num q) ∧
      (∀ v : JVal, boolCoerce v = v.truthy) ∧
      (∀ v d : JVal, v.truthy = false → jsOr v d = d) ∧
      (∀ v d : JVal, v.truthy = true → jsOr v d = v) := by
  intro now b lo la hlo hla
  refine ⟨?_, ?_, fun q => rfl, ?_, ?_, ?_⟩
  · simp only [hydrophoneUpdate, hlo, hla]
  · intro v hv
    cases v <;> simp_all [numOrNull, JVal.isNumber]
  · intro v
    cases v <;> rfl
  · intro v d hv
    simp [jsOr, hv]
  · intro v d hv
    simp [jsOr, hv]

/-- Witness for claim C6 at a concrete valid body. -/
theorem claim_C6_witness :
    hydrophoneUpdate "T2" cwHydroBody =
      Except.ok
        { longitude := 5, latitude := 6,
          heading := numOrNull cwHydroBody.heading,
          temperature := numOrNull cwHydroBody.temperature,
          humidity := numOrNull cwHydroBody.humidity,
          pressure := numOrNull cwHydroBody.pressure,
          salinity := numOrNull cwHydroBody.salinity,
          shipDetected := boolCoerce cwHydroBody.shipDetected,
          shipType := jsOr cwHydroBody.shipType (JVal.str ""),
          timestamp := jsOr cwHydroBody.timestamp (JVal.str "T2") } :=
  (claim_C6 "T2" cwHydroBody 5 6 rfl rfl).1

/-- Counterexample to claim C8 as stated: two creates handled in the
same millisecond (Date.now equal to 7 both times) both succeed and
return the same id, so the second created document's id does not differ
from the id already present in the collection after the first create. -/
theorem claim_C8_counterexample :
    createPoi 7 cxPoiBody1 = Except.ok cxPoi1 ∧
    createPoi 7 cxPoiBody2 = Except.ok cxPoi2 ∧
    cxPoi2.id = cxPoi1.id := ⟨rfl, rfl, rfl⟩

/-- claim C8 (amended): a successful create assigns as id precisely the
base-36 rendering of the creation timestamp, that rendering is
injective (so creates at pairwise distinct timestamps receive pairwise
distinct fresh ids, and ids can only collide when two creates share a
millisecond), and no successful update ever changes the sequence of
stored ids, for any collection whose merge function leaves the id
untouched. -/
theorem claim_C8 :
    (∀ (now : Nat) (b : PoiBody) (item : Poi),
      createPoi now b = Except.ok item → item.id = toBase36 now) ∧
    (∀ (now : Nat) (nowIso : String) (b : RouteBody) (item : Route),
      createRoute now nowIso b = Except.ok item → item.id = toBase36 now) ∧
    (∀ m n : Nat, m ≠ n → toBase36 m ≠ toBase36 n) ∧
    (∀ (α β : Type) (getId : α → String) (merge : α → β → α),
      (∀ x bb, getId (merge x bb) = getId x) →
      ∀ (id : String) (b : β) (l l' : List α) (d : α),
        updateFirst getId merge id b l = some (d, l') →
        l'.map getId = l.map getId) := by
  refine ⟨?_, ?_, toBase36_injective, ?_⟩
  · intro now b item h
    unfold createPoi at h
    by_cases hc : (!b.name.truthy || !b.lng.isNumber || !b.lat.isNumber) = true
    · rw [if_pos hc] at h
      exact Except.noConfusion h
    · rw [if_neg hc] at h
      cases h
      rfl
  · intro now nowIso b item h
    unfold createRoute at h
    by_cases hc : (!b.name.truthy || !b.coords.isArray || b.coords.arrLen == 0) = true
    · rw [if_pos hc] at h
      exact Except.noConfusion h
    · rw [if_neg hc] at h
      cases h
      rfl
  · intro α β getId merge hm id b l l' d h
    exact updateFirst_map_id getId merge hm id b l l' d h

/-- Witness for claim C8: the injectivity part applied at the concrete
distinct timestamps 1 and 2. -/
theorem claim_C8_witness : toBase36 1 ≠ toBase36 2 :=
  claim_C8.2.2.1 1 2 (by decide)

/-- An array value with a non-zero length is a non-empty array. -/
theorem isNonEmptyArr_of (v : JVal) (h1 : v.isArray = true) (h2 : v.arrLen ≠ 0) :
    v.isNonEmptyArr = true := by
  cases v with
  | arr l =>
    cases l with
    | nil => simp [JVal.arrLen] at h2
    | cons a as => rfl
  | undef => simp [JVal.isArray] at h1
  | null => simp [JVal.isArray] at h1
  | bool b => simp [JVal.isArray] at h1
  | num q => simp [JVal.isArray] at h1
  | str s => simp [JVal.isArray] at h1
  | obj f => simp [JVal.isArray] at h1

/-- A route accepted by the create validation has non-empty-array
coords. -/
theorem createRoute_ok_coords (now : Nat) (nowIso : String) (b : RouteBody)
    (item : Route) (h : createRoute now nowIso b = Except.ok item) :
    item.coords.isNonEmptyArr = true := by
  unfold createRoute at h
  by_cases hc : (!b.name.truthy || !b.coords.isArray || b.coords.arrLen == 0) = true
  · rw [if_pos hc] at h
    exact Except.noConfusion h
  · rw [if_neg hc] at h
    cases h
    simp only [Bool.or_eq_true, Bool.not_eq_true', beq_iff_eq] at hc
    push_neg at hc
    exact isNonEmptyArr_of b.coords (by simpa using hc.1.2) hc.2

/-- Merging a coords-preserving update body keeps coords a non-empty
array. -/
theorem mergeRoute_coords_inv (b : RouteBody) (hb : goodBody b = true)
    (x : Route) (hx : x.coords.isNonEmptyArr = true) :
    (mergeRoute x b).coords.isNonEmptyArr = true := by
  show (pick b.coords x.coords).isNonEmptyArr = true
  cases hbc : b.coords <;> simp_all [goodBody, pick, JVal.isNonEmptyArr]

/-- One route operation that respects the coords discipline preserves the
non-empty-coords invariant of the stored collection. -/
theorem stepRoute_inv (st : List Route) (op : RouteOp)
    (hinv : ∀ r ∈ st, r.coords.isNonEmptyArr = true) (hop : goodOp op = true) :
    ∀ r ∈ stepRoute st op, r.coords.isNonEmptyArr = true := by
  cases op with
  | create now nowIso b =>
    cases hc : createRoute now nowIso b with
    | error e =>
      simp only [stepRoute, hc]
      exact hinv
    | ok item =>
      simp only [stepRoute, hc]
      intro r hr
      rcases List.mem_append.mp hr with h | h
      · exact hinv r h
      · rcases List.mem_singleton.mp h with rfl
        exact createRoute_ok_coords now nowIso b r hc
  | update id b =>
    cases hu : updateFirst Route.id mergeRoute id b st with
    | none =>
      simp only [stepRoute, hu]
      exact hinv
    | some p =>
      simp only [stepRoute, hu]
      intro r hr
      rcases updateFirst_mem Route.id mergeRoute id b st p.2 p.1 (by rw [hu]) r hr with
        h | ⟨x, hx, rfl⟩
      · exact hinv r h
      · exact mergeRoute_coords_inv b hop x (hinv x hx)
  | del id =>
    cases hd : deleteById Route.id id st with
    | error e =>
      simp only [stepRoute, hd]
      exact hinv
    | ok st' =>
      simp only [stepRoute, hd]
      intro r hr
      have hmem : r ∈ st.filter (fun x => x.id != id) := by
        simp only [deleteById] at hd
        split at hd
        · exact Except.noConfusion hd
        · cases hd
          exact hr
      exact hinv r (List.mem_of_mem_filter hmem)

/-- claim C9 (amended): states reachable from the empty route collection
by creates, deletes, and updates whose request body either omits coords
or supplies a non-empty array keep every stored coords a non-empty
array.  (The amendment is forced because the update handler applies a
supplied coords value without re-validating it, unlike create.) -/
theorem claim_C9 :
    ∀ ops : List RouteOp, (∀ op ∈ ops, goodOp op = true) →
      ∀ r ∈ runRoutes ops, r.coords.isNonEmptyArr = true := by
  have main : ∀ (ops : List RouteOp) (st : List Route),
      (∀ r ∈ st, r.coords.isNonEmptyArr = true) →
      (∀ op ∈ ops, goodOp op = true) →
      ∀ r ∈ ops.foldl stepRoute st, r.coords.isNonEmptyArr = true := by
    intro ops
    induction ops with
    | nil =>
      intro st hinv _
      simpa using hinv
    | cons op rest ih =>
      intro st hinv hops
      simp only [List.foldl_cons]
      exact ih (stepRoute st op) (stepRoute_inv st op hinv (hops op (by simp)))
        (fun o ho => hops o (by simp [ho]))
  intro ops hops
  exact main ops [] (by simp) hops

/-- Counterexample to claim C9 as stated: after a valid create, an
update supplying an empty coords array succeeds and is persisted, so a
reachable state stores a route whose coords is the empty sequence. -/
theorem claim_C9_counterexample :
    runRoutes cxRouteOps =
      [{ id := toBase36 1, name := JVal.str "A", coords := JVal.arr [],
         createdAt := "t1" }] ∧
    JVal.isNonEmptyArr (JVal.arr []) = false := ⟨rfl, rfl⟩

/-- Witness for claim C9 at a concrete one-create run. -/
theorem claim_C9_witness : cwRoute.coords.isNonEmptyArr = true :=
  claim_C9 cwRouteOps (by decide) cwRoute (List.mem_cons_self _ _)

/-- The code-point comparator returns a non-positive result exactly on
ordered pairs, so it satisfies the sort comparator contract. -/
theorem codePointCompare_le (s t : String) : codePointCompare s t ≤ 0 ↔ s ≤ t := by
  unfold codePointCompare
  by_cases h : s ≤ t
  · rw [if_pos h]
    exact iff_of_true (by omega) h
  · rw [if_neg h]
    exact iff_of_false (by omega) h

/-- Counterexample to claim C10 as stated: under the documented
default-locale collation (primary strength: "apple" precedes "Banana"),
listing the store [apple, Banana] returns it unchanged, yet that output
is not ascending in lexicographic (code-point) order, because "Banana"
precedes "apple" lexicographically. -/
theorem claim_C10_counterexample :
    listPois localeCompareCI [poiApple, poiBanana] = [poiApple, poiBanana] ∧
    localeCompareCI "apple" "Banana" ≤ 0 ∧
    lexCodePointLe poiApple.name.getStr poiBanana.name.getStr = false ∧
    lexCodePointLe "Banana" "apple" = true := by
  refine ⟨?_, by decide, by decide, by decide⟩
  apply List.mergeSort_of_sorted
  refine List.pairwise_cons.mpr ⟨?_, List.pairwise_singleton _ _⟩
  intro b hb
  rcases List.mem_singleton.mp hb with rfl
  decide

/-- claim C10 (amended): each list endpoint returns a permutation of
the stored documents and never rewrites the store: Routes and
hydrophone history pairwise descending by createdAt; POIs and
Attractions pairwise sorted by the host collation oracle of
localeCompare — for every transitive and total comparator, on stores
whose names are all strings (the handler throws on a non-string name).
The default-locale collation is not code-point lexicographic order, so
ascending-lexicographic by name is not a property of the program. -/
theorem claim_C10 :
    (∀ lc : String → String → Int,
      (∀ a b c, lc a b ≤ 0 → lc b c ≤ 0 → lc a c ≤ 0) →
      (∀ a b, lc a b ≤ 0 ∨ lc b a ≤ 0) →
      ∀ l : List Poi, (∀ x ∈ l, x.name.isString = true) →
        (listPois lc l).Perm l ∧
        (listPois lc l).Pairwise (fun a b => lc a.name.getStr b.name.getStr ≤ 0)) ∧
    (∀ lc : String → String → Int,
      (∀ a b c, lc a b ≤ 0 → lc b c ≤ 0 → lc a c ≤ 0) →
      (∀ a b, lc a b ≤ 0 ∨ lc b a ≤ 0) →
      ∀ l : List Attraction, (∀ x ∈ l, x.name.isString = true) →
        (listAttractions lc l).Perm l ∧
        (listAttractions lc l).Pairwise (fun a b => lc a.name.getStr b.name.getStr ≤ 0)) ∧
    (∀ l : List Route, (listRoutes l).Perm l ∧
      (listRoutes l).Pairwise (fun a b => b.createdAt ≤ a.createdAt)) ∧
    (∀ l : List HistRec, (listHydroHistory l).Perm l ∧
      (listHydroHistory l).Pairwise (fun a b => b.createdAt ≤ a.createdAt)) := by
  refine ⟨?_, ?_, ?_, ?_⟩
  · intro lc htrans htotal l _
    refine ⟨List.mergeSort_perm l _, ?_⟩
    have hp : (l.mergeSort (fun a b => decide (lc a.name.getStr b.name.getStr ≤ 0))).Pairwise
        (fun a b => (decide (lc a.name.getStr b.name.getStr ≤ 0)) = true) :=
      List.sorted_mergeSort
        (by
          intro a b c hab hbc
          simp only [decide_eq_true_eq] at *
          exact htrans _ _ _ hab hbc)
        (by
          intro a b
          simp only [Bool.or_eq_true, decide_eq_true_eq]
          exact htotal _ _) l
    exact hp.imp (fun h => by simpa using h)
  · intro lc htrans htotal l _
    refine ⟨List.mergeSort_perm l _, ?_⟩
    have hp : (l.mergeSort (fun a b => decide (lc a.name.getStr b.name.getStr ≤ 0))).Pairwise
        (fun a b => (decide (lc a.name.getStr b.name.getStr ≤ 0)) = true) :=
      List.sorted_mergeSort
        (by
          intro a b c hab hbc
          simp only [decide_eq_true_eq] at *
          exact htrans _ _ _ hab hbc)
        (by
          intro a b
          simp only [Bool.or_eq_true, decide_eq_true_eq]
          exact htotal _ _) l
    exact hp.imp (fun h => by simpa using h)
  · intro l
    refine ⟨List.mergeSort_perm l _, ?_⟩
    have hp : (l.mergeSort (fun a b => decide (b.createdAt ≤ a.createdAt))).Pairwise
        (fun a b => (decide (b.createdAt ≤ a.createdAt)) = true) :=
      List.sorted_mergeSort
        (by intro a b c hab hbc; simp only [decide_eq_true_eq] at *; exact le_trans hbc hab)
        (by intro a b; simp only [Bool.or_eq_true, decide_eq_true_eq]; exact le_total _ _) l
    exact hp.imp (fun h => by simpa using h)
  · intro l
    refine ⟨List.mergeSort_perm l _, ?_⟩
    have hp : (l.mergeSort (fun a b => decide (b.createdAt ≤ a.createdAt))).Pairwise
        (fun a b => (decide (b.createdAt ≤ a.createdAt)) = true) :=
      List.sorted_mergeSort
        (by intro a b c hab hbc; simp only [decide_eq_true_eq] at *; exact le_trans hbc hab)
        (by intro a b; simp only [Bool.or_eq_true, decide_eq_true_eq]; exact le_total _ _) l
    exact hp.imp (fun h => by simpa using h)

/-- Witness for claim C10: the POI part applied at the code-point
comparator, which satisfies the comparator contract, and a concrete
two-element store whose names are strings. -/
theorem claim_C10_witness :
    (listPois codePointCompare [cwOther, cwPoi]).Perm [cwOther, cwPoi] ∧
    (listPois codePointCompare [cwOther, cwPoi]).Pairwise
      (fun a b => codePointCompare a.name.getStr b.name.getStr ≤ 0) :=
  claim_C10.1 codePointCompare
    (fun a b c hab hbc => (codePointCompare_le a c).mpr
      (le_trans ((codePointCompare_le a b).mp hab) ((codePointCompare_le b c).mp hbc)))
    (fun a b => (le_total a b).imp (codePointCompare_le a b).mpr (codePointCompare_le b a).mpr)
    [cwOther, cwPoi] (by decide)
